import Mathlib

/-!
Verification development for the photo-watermark batch-compositing app.

The definitions below are a shallow embedding of the client pipeline
(`src/unnamed/part_005`): EXIF metadata extraction (`formatExifDate`,
`parseExifGps`), the unknown-location heuristic (`isUnknownLocationText`
and the inlined worker variant), the duplicated worker / main-thread
rasterization geometry (`workerLayout` / `mainLayout`), reverse geocoding
with its per-session cache (`reverseGeocode`, `triggerReverseGeocodeM`),
the batch coordinator's worker-event settlement machine (`coordStep`),
draft-id generation in `onDrop`, and the `processPhotos` state effects.

JavaScript strings are modelled as `List Char`, JavaScript numbers as
rationals (`ℚ`), with an explicit `JSNum` wrapper where NaN/Infinity
matter (`Number.isFinite` checks).  Fallible async code is modelled with
`Except`/`Option`.
-/

/-- JavaScript strings are modelled as lists of characters. -/
abbrev JStr := List Char

/-- Characters matched by the JS regex class `\s` and removed by
`String.prototype.trim` (ASCII whitespace, NBSP, Unicode space
separators, line/paragraph separators, BOM). -/
def jsWhitespaceChar (c : Char) : Bool :=
  let n := c.toNat
  n == 9 || n == 10 || n == 11 || n == 12 || n == 13 || n == 32 ||
  n == 0xA0 || n == 0x1680 ||
  (decide (0x2000 ≤ n) && decide (n ≤ 0x200A)) ||
  n == 0x2028 || n == 0x2029 || n == 0x202F || n == 0x205F ||
  n == 0x3000 || n == 0xFEFF

/-- Model of `String.prototype.trim`: strip leading and trailing
whitespace. -/
def jsTrim (s : JStr) : JStr :=
  ((s.dropWhile jsWhitespaceChar).reverse.dropWhile jsWhitespaceChar).reverse

/-- Consume one-or-more decimal digits (the regex atom `\d+`, greedy);
`none` when the input does not start with a digit. -/
def chompDigits1 : JStr → Option JStr
  | [] => none
  | c :: rest => if c.isDigit then some (rest.dropWhile Char.isDigit) else none

/-- Consume the regex fragment `-?\d+(?:\.\d+)?`: optional minus sign,
digits, optional fractional part.  Returns the unconsumed remainder. -/
def chompNumber (s : JStr) : Option JStr :=
  let s1 := match s with
    | '-' :: rest => rest
    | _ => s
  match chompDigits1 s1 with
  | none => none
  | some r =>
    match r with
    | '.' :: r2 =>
      match chompDigits1 r2 with
      | some r3 => some r3
      | none => some r
    | _ => some r

/-- The anchored regex `/^-?\d+(?:\.\d+)?\s*,\s*-?\d+(?:\.\d+)?$/` used
by both rasterization paths to detect a bare unresolved `lat, lon`
pair. -/
def numericPairMatch (s : JStr) : Bool :=
  match chompNumber s with
  | none => false
  | some r =>
    match r.dropWhile jsWhitespaceChar with
    | ',' :: r2 =>
      match chompNumber (r2.dropWhile jsWhitespaceChar) with
      | some [] => true
      | _ => false
    | _ => false

/-- `isUnknownLocationText` from the page module: a location string is
"unknown-looking" when its trim is empty, equals the localized
unknown-location sentinel, or matches the bare numeric-pair pattern. -/
def isUnknownLocationText (text tUnknown : JStr) : Bool :=
  let trimmed := jsTrim text
  if trimmed.isEmpty then true
  else if trimmed = tUnknown then true
  else if numericPairMatch trimmed then true
  else false

/-- The anchored replacement `^(\d{4}):(\d{2}):(\d{2})` → `$1-$2-$3`
applied by `formatExifDate`: rewrite the two date-separator colons of a
leading `YYYY:MM:DD` prefix, leaving everything after it untouched. -/
def replaceDateSep (s : JStr) : JStr :=
  match s with
  | a :: b :: c :: d :: x :: e :: f :: y :: g :: h :: rest =>
    if x = ':' && y = ':' &&
        a.isDigit && b.isDigit && c.isDigit && d.isDigit &&
        e.isDigit && f.isDigit && g.isDigit && h.isDigit then
      a :: b :: c :: d :: '-' :: e :: f :: '-' :: g :: h :: rest
    else s
  | _ => s

/-- `formatExifDate(raw, fallback)`: non-strings and blank strings yield
the fallback; otherwise the trimmed value with the date separators of a
leading `YYYY:MM:DD` normalized to dashes. -/
def formatExifDate (raw : Option JStr) (fallback : JStr) : JStr :=
  match raw with
  | none => fallback
  | some s => if (jsTrim s).isEmpty then fallback else replaceDateSep (jsTrim s)

/-- A JavaScript number: a finite rational or one of the non-finite
values NaN / +Infinity / -Infinity. -/
inductive JSNum where
  | fin (q : ℚ)
  | nan
  | inf
  | ninf
deriving DecidableEq, Repr

/-- `Math.abs` on JS numbers. -/
def jsAbs : JSNum → JSNum
  | .fin q => .fin |q|
  | .nan => .nan
  | .inf => .inf
  | .ninf => .inf

/-- Unary minus on JS numbers. -/
def jsNeg : JSNum → JSNum
  | .fin q => .fin (-q)
  | .nan => .nan
  | .inf => .ninf
  | .ninf => .inf

/-- `Number.isFinite`. -/
def jsIsFinite : JSNum → Bool
  | .fin _ => true
  | _ => false

/-- `n ≤ 0` on a JS number (false for NaN and +Infinity). -/
def jsNonpos : JSNum → Bool
  | .fin q => decide (q ≤ 0)
  | .ninf => true
  | _ => false

/-- An EXIF tag value as seen by `parseExifGps`: a number, an array of
values, a string, or something else entirely. -/
inductive EVal where
  | num (n : JSNum)
  | arr (l : List EVal)
  | str (s : JStr)
  | other

/-- The local `toNumber` helper of `parseExifGps`: a number is taken as
is; a non-empty array whose first element is a number yields that first
element; everything else is `undefined`. -/
def toNumber (v : EVal) : Option JSNum :=
  match v with
  | .num n => some n
  | .arr (.num n :: _) => some n
  | _ => none

/-- The EXIF tag fields read by the ingestion path (`onDrop`):
`description` of the three date tags, `value` of the two GPS magnitude
tags, `description` of the two hemisphere-reference tags.  A `none`
models an absent tag (or absent field). -/
structure ExifTags where
  dateTimeOriginal : Option JStr
  dateTimeDigitized : Option JStr
  dateTime : Option JStr
  gpsLatitude : Option EVal
  gpsLongitude : Option EVal
  gpsLatitudeRef : Option JStr
  gpsLongitudeRef : Option JStr

/-- The coordinate record produced by `parseExifGps`. -/
structure GpsCoordM where
  lat : JSNum
  lon : JSNum
deriving DecidableEq, Repr

/-- `parseExifGps`: pull both GPS magnitudes through `toNumber`, negate
the absolute value for hemisphere references `S` / `W`, and return the
pair only when both signed values are finite. -/
def parseExifGps (tags : ExifTags) : Option GpsCoordM :=
  match tags.gpsLatitude.bind toNumber, tags.gpsLongitude.bind toNumber with
  | some latN, some lonN =>
    let signedLat := if tags.gpsLatitudeRef = some ['S'] then jsNeg (jsAbs latN) else latN
    let signedLon := if tags.gpsLongitudeRef = some ['W'] then jsNeg (jsAbs lonN) else lonN
    if jsIsFinite signedLat && jsIsFinite signedLon then
      some { lat := signedLat, lon := signedLon }
    else none
  | _, _ => none

/-- The timestamp shown for a draft (`onDrop`):
`formatExifDate(DateTimeOriginal?.description ?? DateTimeDigitized?.description
?? DateTime?.description, t("unknownDate"))`.  The `??` chain falls
through only on absent values, not on empty strings. -/
def shotAtOf (tags : ExifTags) (unknownDate : JStr) : JStr :=
  formatExifDate
    (tags.dateTimeOriginal <|> tags.dateTimeDigitized <|> tags.dateTime)
    unknownDate

/-- `Math.round` on a finite JS number: floor of `q + 1/2` (ties go
toward positive infinity, as in JavaScript). -/
def jround (q : ℚ) : ℤ := ⌊q + 1 / 2⌋

/-- The `textColor` passed to the rasterization routines. -/
structure RgbaM where
  r : ℕ
  g : ℕ
  b : ℕ
  a : ℚ
deriving DecidableEq

/-- The `WorkerSettings` snapshot shipped to either rasterization path. -/
structure WorkerSettingsM where
  fontFamily : JStr
  fontSize : ℚ
  textColor : RgbaM
  showLocation : Bool
  unknownLocationText : JStr
deriving DecidableEq

/-- The geometry computed by either rasterization routine before
drawing: font metrics, panel size, and the clamped bottom-right anchor
position. -/
structure Geometry where
  fontSize : ℤ
  lineHeight : ℤ
  padX : ℤ
  padY : ℤ
  margin : ℤ
  boxWidth : ℤ
  boxHeight : ℤ
  x : ℤ
  y : ℤ
deriving DecidableEq, Repr

/-- Overlay-line selection inside the worker blob (`processOne`):
`unknown` compares the raw (untrimmed) location text against the
sentinel and tests the numeric-pair regex on the trimmed text; the
candidate list `[shotAt, location-or-empty]` is then filtered by
truthiness. -/
def workerSelectLines (shotAt locationText : JStr) (settings : WorkerSettingsM) : List JStr :=
  let unknown := decide (locationText = settings.unknownLocationText) ||
    numericPairMatch (jsTrim locationText)
  ([shotAt, if settings.showLocation && !unknown then locationText else []]).filter
    (fun l => !l.isEmpty)

/-- Overlay-line selection in `processInMainThread`: start from the
truthy-filtered `[shotAt]` and push the location text when
`showLocation` holds and `isUnknownLocationText` rejects it. -/
def mainSelectLines (shotAt locationText : JStr) (settings : WorkerSettingsM) : List JStr :=
  let lines := [shotAt].filter (fun l => !l.isEmpty)
  if settings.showLocation && !isUnknownLocationText locationText settings.unknownLocationText then
    lines ++ [locationText]
  else lines

/-- Geometry block of the worker blob (`processOne`, the lines computing
`fontSize` through `y`).  `measure` is the `ctx.measureText` oracle. -/
def workerLayout (width height : ℕ) (settings : WorkerSettingsM)
    (lines : List JStr) (measure : JStr → ℚ) : Geometry :=
  let fontSize : ℤ := max 10 (jround settings.fontSize)
  let lineHeight : ℤ := jround ((fontSize : ℚ) * 1.4)
  let padX : ℤ := jround ((fontSize : ℚ) * 0.7)
  let padY : ℤ := jround ((fontSize : ℚ) * 0.5)
  let margin : ℤ := max 16 (jround ((width : ℚ) * 0.01))
  let maxWidth : ℚ := lines.foldl (fun m text => max m (measure text)) 0
  let boxWidth : ℤ := jround (maxWidth + (padX : ℚ) * 2)
  let boxHeight : ℤ := jround ((lines.length : ℚ) * (lineHeight : ℚ) + (padY : ℚ) * 2)
  { fontSize, lineHeight, padX, padY, margin, boxWidth, boxHeight,
    x := max 0 ((width : ℤ) - boxWidth - margin),
    y := max 0 ((height : ℤ) - boxHeight - margin) }

/-- Geometry block of `processInMainThread` (the duplicated lines
computing `fontSize` through `y`). -/
def mainLayout (width height : ℕ) (settings : WorkerSettingsM)
    (lines : List JStr) (measure : JStr → ℚ) : Geometry :=
  let fontSize : ℤ := max 10 (jround settings.fontSize)
  let lineHeight : ℤ := jround ((fontSize : ℚ) * 1.4)
  let padX : ℤ := jround ((fontSize : ℚ) * 0.7)
  let padY : ℤ := jround ((fontSize : ℚ) * 0.5)
  let margin : ℤ := max 16 (jround ((width : ℚ) * 0.01))
  let maxWidth : ℚ := lines.foldl (fun m text => max m (measure text)) 0
  let boxWidth : ℤ := jround (maxWidth + (padX : ℚ) * 2)
  let boxHeight : ℤ := jround ((lines.length : ℚ) * (lineHeight : ℚ) + (padY : ℚ) * 2)
  { fontSize, lineHeight, padX, padY, margin, boxWidth, boxHeight,
    x := max 0 ((width : ℤ) - boxWidth - margin),
    y := max 0 ((height : ℤ) - boxHeight - margin) }

/-- A pending draft entry (`PhotoDraft`), restricted to the fields the
modelled operations read or write. -/
structure PhotoDraftM where
  id : JStr
  name : JStr
  shotAt : JStr
  locationText : JStr
  sourceUrl : JStr
  isGeocoding : Bool
deriving DecidableEq, Repr

/-- A JSON field value of the geocoding response body. -/
inductive JsonField where
  | strVal (s : JStr)
  | nonString
deriving DecidableEq, Repr

/-- Outcome of reading the geocoding response body: `res.json()` either
rejects (malformed body) or yields an object whose `display_name` field
may be absent, a string, or some other value. -/
inductive FetchBody where
  | malformed
  | jsonBody (displayName : Option JsonField)
deriving DecidableEq, Repr

/-- Outcome of the `fetch` call in `reverseGeocode`: rejection (network
error) or a response with an `ok` flag and a body. -/
inductive FetchOutcome where
  | networkError
  | response (ok : Bool) (body : FetchBody)
deriving DecidableEq, Repr

/-- `reverseGeocode(lat, lon)` as a function of the fetch outcome.
`Except.error ()` models a rejected promise: the `await fetch` rejection
and the `await res.json()` rejection both propagate to the caller; a
non-ok status and a missing or non-string `display_name` yield `null`. -/
def reverseGeocode (o : FetchOutcome) : Except Unit (Option JStr) :=
  match o with
  | .networkError => .error ()
  | .response false _ => .ok none
  | .response true .malformed => .error ()
  | .response true (.jsonBody (some (.strVal s))) => .ok (some s)
  | .response true (.jsonBody _) => .ok none

/-- A latitude/longitude pair with finite coordinates, as held in
`PhotoDraft.gps`. -/
structure GpsQ where
  lat : ℚ
  lon : ℚ
deriving DecidableEq, Repr

/-- The geocode-cache key `` `${lat.toFixed(6)},${lon.toFixed(6)}` ``:
modelled by the pair of coordinates rounded to 6 decimal places (the
rounded integers determine the formatted string). -/
def cacheKey (gps : GpsQ) : ℤ × ℤ :=
  (jround (gps.lat * 1000000), jround (gps.lon * 1000000))

/-- `Map.get` on the geocode cache (an association list; insertion
prepends, so the first hit is the latest binding). -/
def lookupCache : List ((ℤ × ℤ) × JStr) → ℤ × ℤ → Option JStr
  | [], _ => none
  | (k, v) :: rest, key => if k = key then some v else lookupCache rest key

/-- The `setPhotos(prev => prev.map(p => p.id === photoId ? {...p, ...} : p))`
update pattern used by `triggerReverseGeocode`. -/
def updatePhoto (ps : List PhotoDraftM) (photoId : JStr)
    (f : PhotoDraftM → PhotoDraftM) : List PhotoDraftM :=
  ps.map (fun p => if p.id = photoId then f p else p)

/-- The mutable state touched by `triggerReverseGeocode`: the
session-scoped geocode cache and the pending-photo list. -/
structure GeoState where
  cache : List ((ℤ × ℤ) × JStr)
  photos : List PhotoDraftM
deriving DecidableEq, Repr

/-- The cache-miss continuation of `triggerReverseGeocode`: mark the
entry as resolving, run `reverseGeocode`, and on a truthy (non-empty)
name populate the cache and replace the entry's location text; on
`null`, empty text, or a caught exception only clear the flag.  The
returned flag records that a network request was issued. -/
def geoRequestStep (st : GeoState) (photoId : JStr) (key : ℤ × ℤ)
    (o : FetchOutcome) : GeoState × Bool :=
  let stBusy : GeoState :=
    { st with photos := updatePhoto st.photos photoId (fun p => { p with isGeocoding := true }) }
  match reverseGeocode o with
  | .ok (some text) =>
    if text.isEmpty then
      ({ stBusy with
          photos := updatePhoto stBusy.photos photoId (fun p => { p with isGeocoding := false }) },
        true)
    else
      ({ cache := (key, text) :: stBusy.cache,
         photos := updatePhoto stBusy.photos photoId
           (fun p => { p with locationText := text, isGeocoding := false }) },
        true)
  | .ok none =>
    ({ stBusy with
        photos := updatePhoto stBusy.photos photoId (fun p => { p with isGeocoding := false }) },
      true)
  | .error _ =>
    ({ stBusy with
        photos := updatePhoto stBusy.photos photoId (fun p => { p with isGeocoding := false }) },
      true)

/-- `triggerReverseGeocode(photoId, gps)` for one resolution attempt
whose network behaviour is `o`.  A truthy cached value short-circuits
(no network request, flag `false`); otherwise the request path runs. -/
def triggerReverseGeocodeM (st : GeoState) (photoId : JStr) (gps : GpsQ)
    (o : FetchOutcome) : GeoState × Bool :=
  let key := cacheKey gps
  match lookupCache st.cache key with
  | some cached =>
    if cached.isEmpty then geoRequestStep st photoId key o
    else
      let upd := updatePhoto st.photos photoId (fun p => { p with locationText := cached, isGeocoding := false })
      ({ st with photos := upd }, false)
  | none => geoRequestStep st photoId key o

/-- Messages posted by the rasterization worker. -/
inductive WMsg where
  | progress (done total : ℕ)
  | result (id : JStr)
  | error (message : JStr)
  | complete
deriving DecidableEq, Repr

/-- Events observed by the coordinator promise in `processPhotos`: a
worker message, the worker `error` / `messageerror` callbacks, and the
two timers firing. -/
inductive CEvent where
  | msg (m : WMsg)
  | workerError
  | messageError
  | fireStartup
  | fireOverall
deriving DecidableEq, Repr

/-- The state of the coordinator promise: the `settled` flag of
`finish`, the `gotAnyMessage` flag, whether each timer is still pending,
the fallback flag, and the UI state the handlers write. -/
structure CoordState where
  settled : Bool
  gotAnyMessage : Bool
  startupArmed : Bool
  overallArmed : Bool
  shouldFallbackToMainThread : Bool
  errorMsg : Option JStr
  progressDone : ℕ
  progressTotal : ℕ
  results : List JStr
deriving DecidableEq, Repr

/-- The localized `t("processFailed")` message (opaque sentinel). -/
def processFailedMsg : JStr := ['p', 'r', 'o', 'c', 'e', 's', 's', 'F', 'a', 'i', 'l', 'e', 'd']

/-- `finish()`: resolve the promise once. -/
def coordFinish (s : CoordState) : CoordState :=
  if s.settled then s else { s with settled := true }

/-- One coordinator event, translated handler by handler from
`processPhotos`: the startup timer falls back only when no message of
any kind has arrived; the overall timer records a failure and finishes;
`onerror` / `onmessageerror` clear both timers and finish; a worker
message clears the startup timer, then `progress` and `result` update
the UI, `error` records the message and clears the overall timer
(without finishing), and `complete` clears the overall timer and
finishes. -/
def coordStep (s : CoordState) (e : CEvent) : CoordState :=
  match e with
  | .fireStartup =>
    if s.startupArmed then
      let s1 := { s with startupArmed := false }
      if s1.gotAnyMessage then s1
      else coordFinish { s1 with shouldFallbackToMainThread := true }
    else s
  | .fireOverall =>
    if s.overallArmed then
      coordFinish { s with overallArmed := false, errorMsg := some processFailedMsg }
    else s
  | .workerError =>
    coordFinish { s with startupArmed := false, overallArmed := false, errorMsg := some processFailedMsg }
  | .messageError =>
    coordFinish { s with startupArmed := false, overallArmed := false, errorMsg := some processFailedMsg }
  | .msg m =>
    let s1 := { s with gotAnyMessage := true, startupArmed := false }
    match m with
    | .progress done total => { s1 with progressDone := done, progressTotal := total }
    | .result id => { s1 with results := s1.results ++ [id] }
    | .error message => { s1 with errorMsg := some message, overallArmed := false }
    | .complete => coordFinish { s1 with overallArmed := false }

/-- Coordinator state just after `worker.postMessage`: promise pending,
no message yet, both timers armed. -/
def initCoord : CoordState :=
  { settled := false, gotAnyMessage := false, startupArmed := true, overallArmed := true,
    shouldFallbackToMainThread := false, errorMsg := none,
    progressDone := 0, progressTotal := 0, results := [] }

/-- Run the coordinator over a finite event sequence. -/
def coordRun (events : List CEvent) : CoordState :=
  events.foldl coordStep initCoord

/-- A file handed to `onDrop`: name and `lastModified` timestamp. -/
structure IngestFile where
  name : JStr
  lastModified : ℕ
deriving DecidableEq, Repr

/-- One decimal digit as a character. -/
def digitToChar (d : ℕ) : Char := Char.ofNat (48 + d)

/-- Decimal rendering of a natural number (the template-literal
`${n}` conversion). -/
def natToChars (n : ℕ) : JStr :=
  if n = 0 then ['0'] else ((Nat.digits 10 n).reverse).map digitToChar

/-- Inverse of `digitToChar` (character code minus 48). -/
def charToDigit (c : Char) : ℕ := c.toNat - 48

/-- Decode a decimal digit string back to the natural number it
renders; a left inverse of `natToChars`. -/
def decodeNat (l : JStr) : ℕ := Nat.ofDigits 10 ((l.map charToDigit).reverse)

/-- The draft id `` `${file.name}-${index}-${file.lastModified}` ``
computed in `onDrop`. -/
def draftId (name : JStr) (index : ℕ) (lastModified : ℕ) : JStr :=
  name ++ '-' :: (natToChars index ++ '-' :: natToChars lastModified)

/-- The ids produced by one `onDrop` call, whose `map` callback numbers
the accepted files from `startIndex` (the call itself starts at 0). -/
def onDropIds : ℕ → List IngestFile → List JStr
  | _, [] => []
  | i, f :: fs => draftId f.name i f.lastModified :: onDropIds (i + 1) fs

/-- A processed result entry (`ProcessedPhoto`). -/
structure ProcessedM where
  id : JStr
  name : JStr
  outputUrl : JStr
  shotAt : JStr
  locationText : JStr
deriving DecidableEq, Repr

/-- The component state read and written by `processPhotos`. -/
structure AppState where
  photos : List PhotoDraftM
  processed : List ProcessedM
  progressDone : ℕ
  progressTotal : ℕ
  errorMsg : JStr
  isProcessing : Bool
deriving DecidableEq, Repr

/-- The state writes performed while a run is in flight: `setProgress`
(worker `progress` handler or fallback callback), the `results.push` +
`setProcessed([...results])` pair, and `setErrorMsg` (worker `error`
handler, timeout handler, or the surrounding `catch`). -/
inductive RunEvent where
  | setProgress (done total : ℕ)
  | pushResult (r : ProcessedM)
  | setError (message : JStr)
deriving DecidableEq, Repr

/-- Apply one in-flight state write. -/
def applyRunEvent (s : AppState) (e : RunEvent) : AppState :=
  match e with
  | .setProgress done total => { s with progressDone := done, progressTotal := total }
  | .pushResult r => { s with processed := s.processed ++ [r] }
  | .setError message => { s with errorMsg := message }

/-- `processPhotos` as a state transformer: bail out when there are no
photos or a run is active; otherwise clear the error, raise the
processing flag, reset progress, discard previous results, apply the
run's state writes in order, and finally clear the processing flag. -/
def processPhotosM (s : AppState) (events : List RunEvent) : AppState :=
  if s.photos.isEmpty || s.isProcessing then s
  else
    let s1 : AppState :=
      { s with errorMsg := [], isProcessing := true, progressDone := 0, progressTotal := s.photos.length, processed := [] }
    let s2 := events.foldl applyRunEvent s1
    { s2 with isProcessing := false }

/-- A representative style-settings snapshot used by concrete
instantiations (32px font, white text, location line enabled). -/
def exStyleSettings : WorkerSettingsM :=
  { fontFamily := [], fontSize := 32, textColor := { r := 255, g := 255, b := 255, a := 19 / 20 },
    showLocation := true, unknownLocationText := ['u', 'n', 'k', 'n', 'o', 'w', 'n'] }

/-- A tag set whose original-capture tag is present but empty while the
digitized tag holds a well-formed timestamp. -/
def c2Tags : ExifTags :=
  { dateTimeOriginal := some [], dateTimeDigitized := some ("2023:05:01 10:20:30".data),
    dateTime := none, gpsLatitude := none, gpsLongitude := none,
    gpsLatitudeRef := none, gpsLongitudeRef := none }

/-- A tag set with finite GPS magnitudes 37.5 / 127 and hemisphere
references `S` / `E`. -/
def c3Tags : ExifTags :=
  { dateTimeOriginal := none, dateTimeDigitized := none, dateTime := none,
    gpsLatitude := some (.num (.fin (75 / 2))), gpsLongitude := some (.num (.fin 127)),
    gpsLatitudeRef := some ['S'], gpsLongitudeRef := some ['E'] }

/-- A draft entry whose location text is still its fallback value. -/
def exGeoPhoto : PhotoDraftM :=
  { id := ['a'], name := ['a'], shotAt := [], locationText := ['f', 'b'], sourceUrl := [],
    isGeocoding := false }

/-- Initial geocoding state: empty cache, one pending draft. -/
def exGeoState : GeoState := { cache := [], photos := [exGeoPhoto] }

/-- A concrete coordinate. -/
def originGps : GpsQ := { lat := 0, lon := 0 }

/-- A tag set with every modelled tag absent. -/
def emptyTags : ExifTags :=
  { dateTimeOriginal := none, dateTimeDigitized := none, dateTime := none,
    gpsLatitude := none, gpsLongitude := none, gpsLatitudeRef := none, gpsLongitudeRef := none }

/-- C7: The layout computation is a deterministic pure function —
evaluating either rasterization path's geometry block twice on identical
inputs (lines, measured widths, canvas dimensions, font size) yields
identical geometry — and the anchored box position always satisfies
`boxX ≥ 0` and `boxY ≥ 0`, even when `boxWidth` or `boxHeight` exceeds
the canvas dimensions (`Math.max(0, ·)` clamps to 0, never negative). -/
theorem layout_deterministic_and_clamped :
    ∀ (w h : ℕ) (s : WorkerSettingsM) (lines : List JStr) (measure : JStr → ℚ),
      mainLayout w h s lines measure = mainLayout w h s lines measure ∧
      workerLayout w h s lines measure = workerLayout w h s lines measure ∧
      0 ≤ (mainLayout w h s lines measure).x ∧ 0 ≤ (mainLayout w h s lines measure).y ∧
      0 ≤ (workerLayout w h s lines measure).x ∧ 0 ≤ (workerLayout w h s lines measure).y := by
  intro w h s lines measure
  exact ⟨rfl, rfl, le_max_left 0 _, le_max_left 0 _, le_max_left 0 _, le_max_left 0 _⟩

/-- In-flight run events never touch the pending-photo list. -/
theorem foldl_applyRunEvent_photos :
    ∀ (events : List RunEvent) (s : AppState),
      (events.foldl applyRunEvent s).photos = s.photos := by
  intro events
  induction events with
  | nil => intro s; rfl
  | cons e es ih =>
    intro s
    rw [List.foldl_cons, ih]
    cases e <;> rfl

/-- C10: Running a batch leaves the pending draft list unchanged:
`processPhotos` never writes `photos`; a run only resets and repopulates
the processed-results list, the progress counters, and the error
message, so every draft's id, name, shotAt, locationText and sourceUrl
survive the run unchanged. -/
theorem processPhotos_preserves_drafts :
    ∀ (s : AppState) (events : List RunEvent),
      (processPhotosM s events).photos = s.photos := by
  intro s events
  unfold processPhotosM
  split
  · rfl
  · simp [foldl_applyRunEvent_photos]

/-- C5: the claim that the coordinator always settles is a code bug.
After the worker posts a single `error` message and halts (exactly what
its `catch` branch does), the run promise is unsettled, the startup
timer was cleared on message receipt, and the `error` handler cleared
the 60s overall timer without calling `finish` — so both timer events
are no-ops and the coordinator waits indefinitely.  By contrast, a
`complete` message, the overall timeout, and the silent startup
fallback all settle the run. -/
theorem error_event_never_settles :
    (coordRun [CEvent.msg (WMsg.error ['b', 'o', 'o', 'm'])]).settled = false ∧
    (coordRun [CEvent.msg (WMsg.error ['b', 'o', 'o', 'm'])]).startupArmed = false ∧
    (coordRun [CEvent.msg (WMsg.error ['b', 'o', 'o', 'm'])]).overallArmed = false ∧
    coordStep (coordRun [CEvent.msg (WMsg.error ['b', 'o', 'o', 'm'])]) CEvent.fireStartup =
      coordRun [CEvent.msg (WMsg.error ['b', 'o', 'o', 'm'])] ∧
    coordStep (coordRun [CEvent.msg (WMsg.error ['b', 'o', 'o', 'm'])]) CEvent.fireOverall =
      coordRun [CEvent.msg (WMsg.error ['b', 'o', 'o', 'm'])] ∧
    (coordRun [CEvent.msg WMsg.complete]).settled = true ∧
    (coordRun [CEvent.fireOverall]).settled = true ∧
    (coordRun [CEvent.fireStartup]).settled = true ∧
    (coordRun [CEvent.fireStartup]).shouldFallbackToMainThread = true := by
  decide

/-- C6 counterexample: on a network error (`fetch` rejection)
`reverseGeocode` propagates the rejection instead of yielding null, so
"on any failure it yields null rather than an exception" fails as
stated. -/
theorem reverseGeocode_network_error_raises :
    reverseGeocode FetchOutcome.networkError = Except.error () ∧
    reverseGeocode FetchOutcome.networkError ≠ Except.ok none := by
  exact ⟨rfl, fun h => Except.noConfusion h⟩

/-- C2 counterexample: with an empty original-capture tag and a
well-formed digitized tag, the code displays the unknown-date sentinel —
the empty value does not fall through to the digitized tag as the claim
states. -/
theorem empty_original_does_not_fall_through :
    shotAtOf c2Tags ['u', 'n', 'k'] = ['u', 'n', 'k'] ∧
    formatExifDate c2Tags.dateTimeDigitized ['u', 'n', 'k'] = "2023-05-01 10:20:30".data ∧
    (['u', 'n', 'k'] : JStr) ≠ "2023-05-01 10:20:30".data := by
  refine ⟨by decide, by decide, by decide⟩

/-- C1 counterexample: a whitespace-only location text (non-empty, so
truthy) is kept as an overlay line by the worker routine but rejected by
the main-thread routine's trim-based predicate, so the two paths select
different line lists and compute different box heights. -/
theorem worker_main_lines_differ_on_whitespace_location :
    workerSelectLines ['d'] [' '] exStyleSettings ≠ mainSelectLines ['d'] [' '] exStyleSettings ∧
    (workerLayout 100 100 exStyleSettings (workerSelectLines ['d'] [' '] exStyleSettings)
        (fun _ => 0)).boxHeight ≠
      (mainLayout 100 100 exStyleSettings (mainSelectLines ['d'] [' '] exStyleSettings)
        (fun _ => 0)).boxHeight := by
  have hw : workerSelectLines ['d'] [' '] exStyleSettings = [['d'], [' ']] := by decide
  have hm : mainSelectLines ['d'] [' '] exStyleSettings = [['d']] := by decide
  refine ⟨by decide, ?_⟩
  rw [hw, hm]
  norm_num [workerLayout, mainLayout, jround, exStyleSettings, max_def]

/-- C9 counterexample: two separate ingestion calls both number their
files from ordinal 0, so dropping the same file (same name, same
last-modified timestamp) twice yields two identical ids in the
accumulated pending list. -/
theorem duplicate_ids_across_drops :
    ¬ (onDropIds 0 [{ name := ['a'], lastModified := 5 }] ++
        onDropIds 0 [{ name := ['a'], lastModified := 5 }]).Nodup := by
  intro h
  simp only [onDropIds, List.append] at h
  exact (List.nodup_cons.mp h).1 (by simp)

/-- C8 counterexample: when the first resolution fails (network error)
nothing is cached, so a second resolution of the same coordinate issues
a second network request — "resolving the same coordinate twice issues
at most one network call" fails as stated. -/
theorem failed_resolution_issues_second_call :
    (triggerReverseGeocodeM exGeoState ['a'] originGps FetchOutcome.networkError).2 = true ∧
    (triggerReverseGeocodeM
        (triggerReverseGeocodeM exGeoState ['a'] originGps FetchOutcome.networkError).1
        ['a'] originGps FetchOutcome.networkError).2 = true := by
  refine ⟨by decide, by decide⟩


/-- C2 (amended): the displayed timestamp is computed from the first
tag value that is present (non-null) in the chain original → digitized →
modify, regardless of emptiness; when the chain is empty, or the
selected value is blank, the unknown-date sentinel is shown (a blank
value does not fall through to later tags); otherwise the trimmed value
is shown with the date-separator colons of a leading `YYYY:MM:DD`
rewritten to dashes, the time-of-day substring untouched. -/
theorem shotAt_chain_characterization :
    ∀ (t : ExifTags) (fb : JStr),
      ((t.dateTimeOriginal <|> t.dateTimeDigitized <|> t.dateTime) = none → shotAtOf t fb = fb) ∧
      (∀ v, (t.dateTimeOriginal <|> t.dateTimeDigitized <|> t.dateTime) = some v →
        ((jsTrim v).isEmpty = true → shotAtOf t fb = fb) ∧
        ((jsTrim v).isEmpty = false → shotAtOf t fb = replaceDateSep (jsTrim v))) ∧
      (∀ (a b c d e f g h : Char) (rest : JStr),
        (a.isDigit && b.isDigit && c.isDigit && d.isDigit &&
          e.isDigit && f.isDigit && g.isDigit && h.isDigit) = true →
        replaceDateSep (a :: b :: c :: d :: ':' :: e :: f :: ':' :: g :: h :: rest) =
          a :: b :: c :: d :: '-' :: e :: f :: '-' :: g :: h :: rest) := by
  intro t fb
  refine ⟨?_, ?_, ?_⟩
  · intro hnone
    unfold shotAtOf
    rw [hnone]
    rfl
  · intro v hv
    unfold shotAtOf
    rw [hv]
    constructor
    · intro he; simp [formatExifDate, he]
    · intro he; simp [formatExifDate, he]
  · intro a b c d e f g h rest hd
    simp only [Bool.and_eq_true] at hd
    obtain ⟨⟨⟨⟨⟨⟨⟨h1, h2⟩, h3⟩, h4⟩, h5⟩, h6⟩, h7⟩, h8⟩ := hd
    simp [replaceDateSep, h1, h2, h3, h4, h5, h6, h7, h8]

/-- Witness for the amended C2 claim: with all three tags absent the
sentinel is shown, and normalization rewrites exactly the two date
separators of a well-formed timestamp. -/
theorem shotAt_chain_witness :
    shotAtOf emptyTags ['u'] = ['u'] ∧
    replaceDateSep ("2023:05:01 10:20:30".data) = "2023-05-01 10:20:30".data := by
  constructor
  · exact (shotAt_chain_characterization emptyTags ['u']).1 rfl
  · exact (shotAt_chain_characterization c2Tags ['u']).2.2
      '2' '0' '2' '3' '0' '5' '0' '1' (" 10:20:30".data) (by decide)

/-- Negating the absolute value preserves JS finiteness. -/
theorem jsIsFinite_neg_abs (n : JSNum) : jsIsFinite (jsNeg (jsAbs n)) = jsIsFinite n := by
  cases n <;> rfl

/-- The signed magnitude of `parseExifGps` is finite exactly when the
raw magnitude is. -/
theorem jsIsFinite_signed (P : Prop) [Decidable P] (n : JSNum) :
    jsIsFinite (if P then jsNeg (jsAbs n) else n) = jsIsFinite n := by
  split
  · exact jsIsFinite_neg_abs n
  · rfl

/-- A finite negated absolute value is nonpositive. -/
theorem jsNonpos_neg_abs (n : JSNum) (hf : jsIsFinite (jsNeg (jsAbs n)) = true) :
    jsNonpos (jsNeg (jsAbs n)) = true := by
  cases n with
  | fin q =>
    simp only [jsAbs, jsNeg, jsNonpos, decide_eq_true_eq]
    exact neg_nonpos.mpr (abs_nonneg q)
  | nan => simp [jsAbs, jsNeg, jsIsFinite] at hf
  | inf => simp [jsAbs, jsNeg, jsIsFinite] at hf
  | ninf => simp [jsAbs, jsNeg, jsIsFinite] at hf

/-- C3: whenever `parseExifGps` yields a coordinate, hemisphere
reference `S` forces latitude ≤ 0 and `W` forces longitude ≤ 0, while
any other (or missing) reference passes the magnitude through with its
sign preserved; a missing magnitude, and a non-finite magnitude, make
the coordinate absent. -/
theorem parseExifGps_sign_and_absence :
    ∀ t : ExifTags,
      (∀ cd, parseExifGps t = some cd →
        (t.gpsLatitudeRef = some ['S'] → jsNonpos cd.lat = true) ∧
        (t.gpsLongitudeRef = some ['W'] → jsNonpos cd.lon = true) ∧
        (t.gpsLatitudeRef ≠ some ['S'] → t.gpsLatitude.bind toNumber = some cd.lat) ∧
        (t.gpsLongitudeRef ≠ some ['W'] → t.gpsLongitude.bind toNumber = some cd.lon)) ∧
      ((t.gpsLatitude.bind toNumber = none ∨ t.gpsLongitude.bind toNumber = none) →
        parseExifGps t = none) ∧
      (∀ n, (t.gpsLatitude.bind toNumber = some n ∨ t.gpsLongitude.bind toNumber = some n) →
        jsIsFinite n = false → parseExifGps t = none) := by
  intro t
  cases hla : t.gpsLatitude.bind toNumber with
  | none =>
    refine ⟨?_, ?_, ?_⟩
    · intro cd hcd; simp [parseExifGps, hla] at hcd
    · intro _; simp [parseExifGps, hla]
    · intro n _ _; simp [parseExifGps, hla]
  | some la =>
    cases hlo : t.gpsLongitude.bind toNumber with
    | none =>
      refine ⟨?_, ?_, ?_⟩
      · intro cd hcd; simp [parseExifGps, hla, hlo] at hcd
      · intro _; simp [parseExifGps, hla, hlo]
      · intro n _ _; simp [parseExifGps, hla, hlo]
    | some lo =>
      refine ⟨?_, ?_, ?_⟩
      · intro cd hcd
        simp only [parseExifGps, hla, hlo] at hcd
        by_cases hS : t.gpsLatitudeRef = some ['S']
        · by_cases hW : t.gpsLongitudeRef = some ['W']
          · rw [if_pos hS, if_pos hW] at hcd
            split at hcd
            next hfin =>
              rw [Bool.and_eq_true] at hfin
              injection hcd with hcd2
              subst hcd2
              exact ⟨fun _ => jsNonpos_neg_abs la hfin.1, fun _ => jsNonpos_neg_abs lo hfin.2,
                fun hc => absurd hS hc, fun hc => absurd hW hc⟩
            next => exact absurd hcd (by simp)
          · rw [if_pos hS, if_neg hW] at hcd
            split at hcd
            next hfin =>
              rw [Bool.and_eq_true] at hfin
              injection hcd with hcd2
              subst hcd2
              exact ⟨fun _ => jsNonpos_neg_abs la hfin.1, fun hc => absurd hc hW,
                fun hc => absurd hS hc, fun _ => rfl⟩
            next => exact absurd hcd (by simp)
        · by_cases hW : t.gpsLongitudeRef = some ['W']
          · rw [if_neg hS, if_pos hW] at hcd
            split at hcd
            next hfin =>
              rw [Bool.and_eq_true] at hfin
              injection hcd with hcd2
              subst hcd2
              exact ⟨fun hc => absurd hc hS, fun _ => jsNonpos_neg_abs lo hfin.2,
                fun _ => rfl, fun hc => absurd hW hc⟩
            next => exact absurd hcd (by simp)
          · rw [if_neg hS, if_neg hW] at hcd
            split at hcd
            next hfin =>
              injection hcd with hcd2
              subst hcd2
              exact ⟨fun hc => absurd hc hS, fun hc => absurd hc hW,
                fun _ => rfl, fun _ => rfl⟩
            next => exact absurd hcd (by simp)
      · intro habs
        rcases habs with h | h
        · exact absurd h (by simp)
        · exact absurd h (by simp)
      · intro n hn hf
        rcases hn with h | h
        · injection h with h2
          subst h2
          simp [parseExifGps, hla, hlo, jsIsFinite_signed, hf]
        · injection h with h2
          subst h2
          simp [parseExifGps, hla, hlo, jsIsFinite_signed, hf]

/-- Witness for C3: a concrete tag set with southern latitude 37.5 and
eastern longitude 127 parses to a coordinate whose latitude is the
negated magnitude (and is ≤ 0). -/
theorem parseExifGps_witness :
    parseExifGps c3Tags = some { lat := .fin (-|75 / 2|), lon := .fin 127 } ∧
    jsNonpos (JSNum.fin (-|(75 / 2 : ℚ)|)) = true := by
  have h := (parseExifGps_sign_and_absence c3Tags).1
    { lat := .fin (-|75 / 2|), lon := .fin 127 } rfl
  exact ⟨rfl, h.1 rfl⟩

/-- `isUnknownLocationText` rejects a location exactly when its trim is
non-empty, differs from the sentinel, and does not look like a bare
numeric pair. -/
theorem isUnknown_eq_false_iff (text tUnknown : JStr) :
    isUnknownLocationText text tUnknown = false ↔
      jsTrim text ≠ [] ∧ jsTrim text ≠ tUnknown ∧ numericPairMatch (jsTrim text) = false := by
  by_cases h1 : jsTrim text = []
  · simp [isUnknownLocationText, h1]
  · have h1e : (jsTrim text).isEmpty = false := by simpa [List.isEmpty_iff] using h1
    by_cases h2 : jsTrim text = tUnknown <;> by_cases h3 : numericPairMatch (jsTrim text) <;>
      simp [isUnknownLocationText, h1, h1e, h2, h3]

/-- C1 (amended): the worker rasterization routine and the main-thread
fallback agree — same selected line list and same geometry for the same
measured widths — whenever the draft's location text carries no leading
or trailing whitespace (equals its own trim).  The worker skips the
trim-based emptiness/sentinel normalization of `isUnknownLocationText`,
so location texts with surrounding whitespace can diverge. -/
theorem worker_main_equiv_of_trimmed_location :
    ∀ (shotAt loc : JStr) (settings : WorkerSettingsM),
      jsTrim loc = loc →
      workerSelectLines shotAt loc settings = mainSelectLines shotAt loc settings ∧
      ∀ (w h : ℕ) (measure : JStr → ℚ),
        workerLayout w h settings (workerSelectLines shotAt loc settings) measure =
          mainLayout w h settings (mainSelectLines shotAt loc settings) measure := by
  intro shotAt loc settings htrim
  have hsel : workerSelectLines shotAt loc settings = mainSelectLines shotAt loc settings := by
    by_cases hloc : loc = []
    · subst hloc
      simp [workerSelectLines, mainSelectLines, isUnknownLocationText, jsTrim, List.filter]
    · have hne : loc.isEmpty = false := by simpa [List.isEmpty_iff] using hloc
      have hiu : isUnknownLocationText loc settings.unknownLocationText =
          (decide (loc = settings.unknownLocationText) || numericPairMatch loc) := by
        unfold isUnknownLocationText
        rw [htrim]
        by_cases h1 : loc = settings.unknownLocationText <;>
          by_cases h2 : numericPairMatch loc <;> simp [hne, h1, h2]
      have hmain : mainSelectLines shotAt loc settings =
          if (settings.showLocation &&
              !(decide (loc = settings.unknownLocationText) || numericPairMatch loc)) = true
          then [shotAt].filter (fun l => !l.isEmpty) ++ [loc]
          else [shotAt].filter (fun l => !l.isEmpty) := by
        simp only [mainSelectLines, hiu]
      have hworker : workerSelectLines shotAt loc settings =
          ([shotAt, if (settings.showLocation &&
              !(decide (loc = settings.unknownLocationText) || numericPairMatch loc)) = true
            then loc else []]).filter (fun l => !l.isEmpty) := by
        simp only [workerSelectLines, htrim]
      rw [hworker, hmain]
      cases hcond : (settings.showLocation &&
          !(decide (loc = settings.unknownLocationText) || numericPairMatch loc)) with
      | false =>
        by_cases hsa : shotAt.isEmpty <;> simp [List.filter, hsa]
      | true =>
        by_cases hsa : shotAt.isEmpty <;> simp [List.filter, hsa, hne]
  refine ⟨hsel, fun w h measure => ?_⟩
  rw [hsel]
  rfl

/-- Witness for the amended C1 claim: for an ordinary resolved place
name (no surrounding whitespace) the two paths pick the same lines. -/
theorem worker_main_equiv_witness :
    workerSelectLines ['d'] ['P', 'a', 'r', 'i', 's'] exStyleSettings =
      mainSelectLines ['d'] ['P', 'a', 'r', 'i', 's'] exStyleSettings :=
  (worker_main_equiv_of_trimmed_location ['d'] ['P', 'a', 'r', 'i', 's'] exStyleSettings
    (by decide)).1

/-- C4: the main-thread line list carries the location text (as the
appended second line) exactly when `showLocation` is on and the trimmed
text is non-empty, differs from the unknown-location sentinel, and does
not match the bare numeric-pair pattern; with `showLocation = false` the
list is just the (truthy-filtered) timestamp, is a single line whenever
the timestamp is non-empty, and the computed box height is the
single-line value. -/
theorem location_line_iff :
    ∀ (shotAt loc : JStr) (settings : WorkerSettingsM),
      (mainSelectLines shotAt loc settings =
          [shotAt].filter (fun l => !l.isEmpty) ++ [loc] ↔
        settings.showLocation = true ∧ jsTrim loc ≠ [] ∧
          jsTrim loc ≠ settings.unknownLocationText ∧
          numericPairMatch (jsTrim loc) = false) ∧
      (settings.showLocation = false →
        mainSelectLines shotAt loc settings = [shotAt].filter (fun l => !l.isEmpty) ∧
        (shotAt ≠ [] → (mainSelectLines shotAt loc settings).length = 1 ∧
          ∀ (w h : ℕ) (measure : JStr → ℚ),
            (mainLayout w h settings (mainSelectLines shotAt loc settings) measure).boxHeight =
              jround ((1 : ℚ) *
                ((mainLayout w h settings
                  (mainSelectLines shotAt loc settings) measure).lineHeight : ℚ) +
                ((mainLayout w h settings
                  (mainSelectLines shotAt loc settings) measure).padY : ℚ) * 2))) := by
  intro shotAt loc settings
  have hbase : ([shotAt].filter (fun l => !l.isEmpty)) ++ [loc] ≠
      [shotAt].filter (fun l => !l.isEmpty) := by
    intro h
    have := congrArg List.length h
    simp at this
  constructor
  · constructor
    · intro heq
      by_cases hcond : (settings.showLocation &&
          !isUnknownLocationText loc settings.unknownLocationText) = true
      · rw [Bool.and_eq_true, Bool.not_eq_true'] at hcond
        obtain ⟨hshow, hunk⟩ := hcond
        have h3 := (isUnknown_eq_false_iff loc settings.unknownLocationText).mp hunk
        exact ⟨hshow, h3.1, h3.2.1, h3.2.2⟩
      · exfalso
        simp only [mainSelectLines] at heq
        rw [if_neg hcond] at heq
        exact hbase heq.symm
    · rintro ⟨hshow, h1, h2, h3⟩
      have hunk : isUnknownLocationText loc settings.unknownLocationText = false :=
        (isUnknown_eq_false_iff loc settings.unknownLocationText).mpr ⟨h1, h2, h3⟩
      simp only [mainSelectLines]
      rw [if_pos (by rw [hshow, hunk]; rfl)]
  · intro hshow
    have hsel : mainSelectLines shotAt loc settings = [shotAt].filter (fun l => !l.isEmpty) := by
      simp only [mainSelectLines]
      rw [if_neg (by rw [hshow]; simp)]
    refine ⟨hsel, fun hshot => ?_⟩
    have hse : shotAt.isEmpty = false := by simpa [List.isEmpty_iff] using hshot
    have hone : mainSelectLines shotAt loc settings = [shotAt] := by
      rw [hsel]
      simp [List.filter, hse]
    refine ⟨by rw [hone]; rfl, fun w h measure => ?_⟩
    rw [hone]
    simp [mainLayout]

/-- Witness for C4: with the location line enabled and a resolved
non-numeric place name, the location text is appended as a line. -/
theorem location_line_iff_witness :
    mainSelectLines ['d'] ['P', 'a', 'r', 'i', 's'] exStyleSettings =
      [(['d'] : JStr)].filter (fun l => !l.isEmpty) ++ [['P', 'a', 'r', 'i', 's']] :=
  (location_line_iff ['d'] ['P', 'a', 'r', 'i', 's'] exStyleSettings).1.mpr
    ⟨rfl, by decide, by decide, by decide⟩

/-- A per-entry update that keeps `locationText` leaves the projected
location texts of the whole list unchanged. -/
theorem updatePhoto_map_locationText (ps : List PhotoDraftM) (pid : JStr)
    (f : PhotoDraftM → PhotoDraftM) (hf : ∀ p, (f p).locationText = p.locationText) :
    (updatePhoto ps pid f).map (fun p => p.locationText) =
      ps.map (fun p => p.locationText) := by
  induction ps with
  | nil => rfl
  | cons p ps ih =>
    have h1 : (if p.id = pid then f p else p).locationText = p.locationText := by
      by_cases h : p.id = pid <;> simp [h, hf p]
    simp only [updatePhoto, List.map_cons] at ih ⊢
    rw [h1, ih]

/-- After the location-setting update, the targeted entry carries the
new location text. -/
theorem updatePhoto_sets_location (ps : List PhotoDraftM) (pid : JStr) (v : JStr) :
    ∀ p ∈ updatePhoto ps pid (fun q => { q with locationText := v, isGeocoding := false }),
      p.id = pid → p.locationText = v := by
  intro p hp hid
  unfold updatePhoto at hp
  rcases List.mem_map.mp hp with ⟨q, hq, hpq⟩
  by_cases h : q.id = pid
  · rw [if_pos h] at hpq
    rw [← hpq]
  · rw [if_neg h] at hpq
    rw [← hpq] at hid
    exact absurd hid h

/-- C6 (amended): `reverseGeocode` yields null on a non-success HTTP
status and on a body whose `display_name` is missing or not a string,
but a network error (and a malformed body) propagates as a rejected
promise; the caller's catch swallows it, so in every failure case the
entries' location texts are unchanged and keep their fallback values. -/
theorem geocode_failure_yields_null_or_caught :
    ∀ (body : FetchBody) (st : GeoState) (pid : JStr) (gps : GpsQ) (o : FetchOutcome),
      reverseGeocode (.response false body) = .ok none ∧
      reverseGeocode (.response true (.jsonBody none)) = .ok none ∧
      reverseGeocode (.response true (.jsonBody (some .nonString))) = .ok none ∧
      (lookupCache st.cache (cacheKey gps) = none →
        (reverseGeocode o = .error () ∨ reverseGeocode o = .ok none ∨
          reverseGeocode o = .ok (some [])) →
        (triggerReverseGeocodeM st pid gps o).1.photos.map (fun p => p.locationText) =
          st.photos.map (fun p => p.locationText)) := by
  intro body st pid gps o
  refine ⟨rfl, rfl, rfl, ?_⟩
  intro hmiss hfail
  simp only [triggerReverseGeocodeM, hmiss]
  rcases hfail with h | h | h
  · simp only [geoRequestStep, h]
    rw [updatePhoto_map_locationText, updatePhoto_map_locationText] <;> intro p <;> rfl
  · simp only [geoRequestStep, h]
    rw [updatePhoto_map_locationText, updatePhoto_map_locationText] <;> intro p <;> rfl
  · simp only [geoRequestStep, h, List.isEmpty_nil, if_true]
    rw [updatePhoto_map_locationText, updatePhoto_map_locationText] <;> intro p <;> rfl

/-- Witness for the amended C6 claim: a network error leaves the
entry's fallback location text in place. -/
theorem geocode_failure_witness :
    (triggerReverseGeocodeM exGeoState ['a'] originGps FetchOutcome.networkError).1.photos.map
        (fun p => p.locationText) = [['f', 'b']] := by
  have h := (geocode_failure_yields_null_or_caught FetchBody.malformed exGeoState ['a']
    originGps FetchOutcome.networkError).2.2.2 rfl (Or.inl rfl)
  exact h.trans rfl

/-- C8 (amended): when the first resolution of a coordinate succeeds
with a non-empty place name, a second resolution of the same coordinate
hits the cache: it issues no network request and hands the entry the
previously cached name.  (A failed first resolution caches nothing, so a
retry issues another request.) -/
theorem cache_hit_skips_network :
    ∀ (st : GeoState) (pid1 pid2 : JStr) (gps : GpsQ) (name : JStr) (o2 : FetchOutcome),
      lookupCache st.cache (cacheKey gps) = none →
      name ≠ [] →
      (triggerReverseGeocodeM
          (triggerReverseGeocodeM st pid1 gps
            (.response true (.jsonBody (some (.strVal name))))).1 pid2 gps o2).2 = false ∧
      ∀ p ∈ (triggerReverseGeocodeM
          (triggerReverseGeocodeM st pid1 gps
            (.response true (.jsonBody (some (.strVal name))))).1 pid2 gps o2).1.photos,
        p.id = pid2 → p.locationText = name := by
  intro st pid1 pid2 gps name o2 hmiss hname
  have hnameE : name.isEmpty = false := by simpa [List.isEmpty_iff] using hname
  have hfirst : (triggerReverseGeocodeM st pid1 gps
      (.response true (.jsonBody (some (.strVal name))))).1 =
      { cache := (cacheKey gps, name) :: st.cache,
        photos := updatePhoto
          (updatePhoto st.photos pid1 (fun p => { p with isGeocoding := true })) pid1
          (fun p => { p with locationText := name, isGeocoding := false }) } := by
    simp only [triggerReverseGeocodeM, hmiss, geoRequestStep, reverseGeocode, hnameE,
      Bool.false_eq_true, if_false]
  rw [hfirst]
  have hlook : lookupCache ((cacheKey gps, name) :: st.cache) (cacheKey gps) = some name := by
    simp [lookupCache]
  constructor
  · simp only [triggerReverseGeocodeM, hlook, hnameE, Bool.false_eq_true, if_false]
  · intro p hp hid
    simp only [triggerReverseGeocodeM, hlook, hnameE, Bool.false_eq_true, if_false] at hp
    exact updatePhoto_sets_location _ pid2 name p hp hid

/-- Witness for the amended C8 claim: after a successful first
resolution, the second resolution of the same coordinate issues no
network request. -/
theorem cache_hit_witness :
    (triggerReverseGeocodeM
        (triggerReverseGeocodeM exGeoState ['a'] originGps
          (.response true (.jsonBody (some (.strVal ['P']))))).1 ['a'] originGps
        FetchOutcome.networkError).2 = false :=
  (cache_hit_skips_network exGeoState ['a'] ['a'] originGps ['P'] FetchOutcome.networkError rfl
    (by decide)).1

/-- Character code of a decimal digit. -/
theorem digitToChar_toNat (d : ℕ) (hd : d < 10) : (digitToChar d).toNat = 48 + d := by
  interval_cases d <;> decide

/-- Decimal digit strings contain no dash. -/
theorem natToChars_no_dash (n : ℕ) : '-' ∉ natToChars n := by
  unfold natToChars
  split
  · decide
  · intro hmem
    rcases List.mem_map.mp hmem with ⟨d, hd, hdc⟩
    have hd10 : d < 10 := Nat.digits_lt_base (by norm_num) (List.mem_reverse.mp hd)
    have hcn := congrArg Char.toNat hdc
    rw [digitToChar_toNat d hd10] at hcn
    have h45 : ('-').toNat = 45 := rfl
    rw [h45] at hcn
    omega

/-- `decodeNat` undoes `natToChars`. -/
theorem decodeNat_natToChars (n : ℕ) : decodeNat (natToChars n) = n := by
  unfold decodeNat natToChars
  split
  next h => subst h; decide
  next h =>
    rw [List.map_map]
    have hmap : ((Nat.digits 10 n).reverse).map (charToDigit ∘ digitToChar) =
        (Nat.digits 10 n).reverse := by
      have hpt : ∀ d ∈ (Nat.digits 10 n).reverse, (charToDigit ∘ digitToChar) d = d := by
        intro d hd
        have hd10 : d < 10 := Nat.digits_lt_base (by norm_num) (List.mem_reverse.mp hd)
        simp [Function.comp, charToDigit, digitToChar_toNat d hd10]
      rw [List.map_congr_left hpt]
      simp
    rw [hmap, List.reverse_reverse, Nat.ofDigits_digits]

/-- Decimal rendering of naturals is injective. -/
theorem natToChars_inj {m n : ℕ} (h : natToChars m = natToChars n) : m = n := by
  have hdec := congrArg decodeNat h
  rwa [decodeNat_natToChars, decodeNat_natToChars] at hdec

/-- Cancelling the first dash-separated field: when two dash-free heads
precede a dash, equal concatenations force equal heads and tails. -/
theorem dashFreeHead : ∀ (a b x y : JStr), '-' ∉ a → '-' ∉ b →
    a ++ '-' :: x = b ++ '-' :: y → a = b ∧ x = y := by
  intro a
  induction a with
  | nil =>
    intro b x y _ hb h
    cases b with
    | nil =>
      injection h with _ h2
      exact ⟨rfl, h2⟩
    | cons c b' =>
      injection h with h1 h2
      subst h1
      exact absurd (List.mem_cons_self _ _) hb
  | cons c a' ih =>
    intro b x y ha hb h
    cases b with
    | nil =>
      injection h with h1 h2
      subst h1
      exact absurd (List.mem_cons_self _ _) ha
    | cons c2 b' =>
      injection h with h1 h2
      subst h1
      obtain ⟨hab, hxy⟩ := ih b' x y (fun hm => ha (List.mem_cons_of_mem _ hm))
        (fun hm => hb (List.mem_cons_of_mem _ hm)) h2
      exact ⟨by rw [hab], hxy⟩

/-- Cancelling the last dash-separated field: when two dash-free tails
follow a dash, equal concatenations force equal fronts and tails. -/
theorem append_dash_cancel (u v p q : JStr) (hp : '-' ∉ p) (hq : '-' ∉ q)
    (h : u ++ '-' :: p = v ++ '-' :: q) : u = v ∧ p = q := by
  have h2 : p.reverse ++ '-' :: u.reverse = q.reverse ++ '-' :: v.reverse := by
    have hr := congrArg List.reverse h
    simpa [List.reverse_append] using hr
  obtain ⟨h3, h4⟩ := dashFreeHead p.reverse q.reverse u.reverse v.reverse
    (fun hm => hp (List.mem_reverse.mp hm)) (fun hm => hq (List.mem_reverse.mp hm)) h2
  exact ⟨List.reverse_injective h4, List.reverse_injective h3⟩

/-- The composite draft id determines name, ordinal index and
last-modified timestamp: the numeric fields are dash-free, so the two
trailing dash-separated fields parse unambiguously from the right. -/
theorem draftId_inj {n1 n2 : JStr} {i1 i2 l1 l2 : ℕ}
    (h : draftId n1 i1 l1 = draftId n2 i2 l2) : n1 = n2 ∧ i1 = i2 ∧ l1 = l2 := by
  unfold draftId at h
  have hassoc : ∀ (nm A B : JStr), nm ++ '-' :: (A ++ '-' :: B) = (nm ++ '-' :: A) ++ '-' :: B := by
    intro nm A B
    simp
  rw [hassoc, hassoc] at h
  obtain ⟨h1, h2⟩ := append_dash_cancel _ _ _ _ (natToChars_no_dash l1) (natToChars_no_dash l2) h
  obtain ⟨h3, h4⟩ := append_dash_cancel _ _ _ _ (natToChars_no_dash i1) (natToChars_no_dash i2) h1
  exact ⟨h3, natToChars_inj h4, natToChars_inj h2⟩

/-- An id built with an ordinal below `j` cannot occur among the ids
numbered from `j` on. -/
theorem draftId_not_in_later : ∀ (fs : List IngestFile) (j i : ℕ) (nm : JStr) (l : ℕ),
    i < j → draftId nm i l ∉ onDropIds j fs := by
  intro fs
  induction fs with
  | nil => intro j i nm l _ hmem; simp [onDropIds] at hmem
  | cons f fs ih =>
    intro j i nm l hij hmem
    simp only [onDropIds, List.mem_cons] at hmem
    rcases hmem with heq | hmem
    · obtain ⟨_, hi, _⟩ := draftId_inj heq
      omega
    · exact ih (j + 1) i nm l (by omega) hmem

/-- C9 (amended): within a single ingestion call the generated draft
ids are pairwise distinct — the per-call ordinal index differs between
any two files, and the composite id determines the index.  (Across
separate ingestion calls accumulating into one pending list, ids can
repeat, since each call numbers its files from 0.) -/
theorem ids_nodup_within_single_drop : ∀ fs : List IngestFile, (onDropIds 0 fs).Nodup := by
  have general : ∀ (fs : List IngestFile) (j : ℕ), (onDropIds j fs).Nodup := by
    intro fs
    induction fs with
    | nil => intro j; simp [onDropIds]
    | cons f fs ih =>
      intro j
      rw [show onDropIds j (f :: fs) =
        draftId f.name j f.lastModified :: onDropIds (j + 1) fs from rfl, List.nodup_cons]
      exact ⟨draftId_not_in_later fs (j + 1) j f.name f.lastModified (by omega), ih (j + 1)⟩
  intro fs
  exact general fs 0
